import Mathlib

/-!
Shallow embedding of the `hse_digital` Python SDK client
(`src/sdks/python/hse_digital/client.py`, `exceptions.py`, `types.py`).

Modelling conventions:
* JSON values are the inductive `Json`; a Python `None` stored in a token
  slot is represented by `Json.null` (JSON `null` parses to Python `None`,
  so the two coincide in the source).
* An HTTP response is `Response` with its status code, the result of
  attempting to parse its body as JSON (`none` = unparseable), and its raw
  text (`""` models an empty body/content).
* The network is an oracle `World`: a queue of pending transport results
  consumed one per `session.request` call, plus a log of every request
  sent (method, url, JSON body, query params, headers), so that theorems
  can speak about which requests a call issues.
* Python exceptions become `Except PyError`; `requests.RequestException`
  raised by a send is the `TransportResult.netErr` case and is wrapped
  into a generic `HSEAPIError` exactly where the source's
  `except requests.exceptions.RequestException` handler sits.
* Machine integers do not occur; status codes are `Nat`, `limit` is `Int`.
-/

inductive Json where
  | null
  | bool (b : Bool)
  | num (n : Int)
  | str (s : String)
  | arr (xs : List Json)
  | obj (fields : List (String × Json))

/-- Python truthiness of a parsed-JSON/`None` value (`if self.access_token:` etc.). -/
def Json.truthy : Json → Bool
  | Json.null => false
  | Json.bool b => b
  | Json.num n => n ≠ 0
  | Json.str s => s ≠ ""
  | Json.arr xs => !xs.isEmpty
  | Json.obj fs => !fs.isEmpty

/-- Python `str(...)` as used by the f-string `f"Bearer {self.access_token}"`.
Container rendering is abbreviated in the model; every claim only ever
renders string tokens, where `str` is the identity. -/
def pyStr : Json → String
  | Json.null => "None"
  | Json.bool true => "True"
  | Json.bool false => "False"
  | Json.num n => toString n
  | Json.str s => s
  | Json.arr _ => "[...]"
  | Json.obj _ => "\x7b...\x7d"

/-- `dict.__getitem__` / `dict.get` field lookup on a JSON object's fields. -/
def lookupField (fields : List (String × Json)) (k : String) : Option Json :=
  (fields.find? (fun p => p.1 = k)).map Prod.snd

/-- `dict.get(k)` cannot distinguish an absent key from a key bound to
`None`: both give Python `None`.  This normalisation collapses a
`null`-valued field to absence, matching that behaviour. -/
def pyNone : Option Json → Option Json
  | some Json.null => none
  | x => x

/-- The `AuthTokens` dataclass (`types.py`).  Field values are whatever
JSON values were extracted from the response (Python performs no type
check on dataclass fields). -/
structure AuthTokens where
  access_token : Json
  refresh_token : Json

/-- The exception classes of `exceptions.py`, collapsed to a kind tag:
`generic` is the base class `HSEAPIError` itself. -/
inductive ErrKind where
  | authentication
  | validation
  | notFound
  | rateLimit
  | server
  | generic
deriving DecidableEq, Repr

/-- An `HSEAPIError` value: message, optional status code, optional details. -/
structure HSEAPIError where
  kind : ErrKind
  message : Json
  status_code : Option Nat
  details : Option Json

/-- Exceptions that can escape the embedded client operations. -/
inductive PyError where
  | api (e : HSEAPIError)
  | keyError (k : String)
  | typeError
  | attributeError

/-- One HTTP response as seen by the client: status code, JSON-parse
result of the body (`none` when unparseable), raw text. -/
structure Response where
  status : Nat
  body : Option Json
  text : String

/-- Outcome of one `session.request` exchange: a response, or a
`requests.RequestException` (connection failure, timeout, ...). -/
inductive TransportResult where
  | ok (r : Response)
  | netErr (msg : String)

/-- A request as actually sent on the wire. -/
structure SentRequest where
  method : String
  url : String
  data : Option Json
  params : List (String × Json)
  headers : List (String × String)

/-- The network oracle: pending transport results (consumed in order) and
the log of sent requests. -/
structure World where
  pending : List TransportResult
  sent : List SentRequest

/-- The mutable state of an `HSEClient` instance.  `on_token_refresh`
records whether an observer callback was registered at construction;
`observer_log` records every token pair the callback has been invoked
with, in order. -/
structure HSEClient where
  base_url : String
  access_token : Json
  refresh_token : Json
  on_token_refresh : Bool
  observer_log : List AuthTokens

/-- `HSEClient.__init__`: strips trailing slashes from the base url,
stores the optional initial access token, leaves the refresh token `None`. -/
def HSEClient.init (base_url : String) (access_token : Option String)
    (on_token_refresh : Bool) : HSEClient :=
  { base_url := base_url.dropRightWhile (fun c => c = '/')
    access_token := match access_token with
      | some s => Json.str s
      | none => Json.null
    refresh_token := Json.null
    on_token_refresh := on_token_refresh
    observer_log := [] }

/-- `HSEClient._get_headers`. -/
def HSEClient.get_headers (c : HSEClient) : List (String × String) :=
  let base := [("Content-Type", "application/json")]
  if c.access_token.truthy then
    base ++ [("Authorization", "Bearer " ++ pyStr c.access_token)]
  else base

/-- `HSEClient.set_tokens`. -/
def HSEClient.set_tokens (c : HSEClient) (tokens : AuthTokens) : HSEClient :=
  { c with
    access_token := tokens.access_token
    refresh_token := tokens.refresh_token
    observer_log :=
      if c.on_token_refresh then c.observer_log ++ [tokens] else c.observer_log }

/-- `HSEClient.clear_tokens`. -/
def HSEClient.clear_tokens (c : HSEClient) : HSEClient :=
  { c with access_token := Json.null, refresh_token := Json.null }

/-- `HSEClient._handle_error`: extract message/details from the body
(`try: response.json() ... except:` fallback to raw text), then raise the
exception class selected by the status code.  A body that parses to a
non-object raises inside the `try` at `.get` and so also takes the
fallback branch. -/
def handle_error (r : Response) : HSEAPIError :=
  let md : Json × Option Json :=
    match r.body with
    | some (Json.obj fields) =>
        ((lookupField fields "error").getD (Json.str "Unknown error"),
         pyNone (lookupField fields "details"))
    | _ =>
        (if r.text = "" then Json.str "Unknown error" else Json.str r.text, none)
  if r.status = 401 then
    { kind := ErrKind.authentication, message := md.1, status_code := some r.status, details := md.2 }
  else if r.status = 400 then
    { kind := ErrKind.validation, message := md.1, status_code := some r.status, details := md.2 }
  else if r.status = 404 then
    { kind := ErrKind.notFound, message := md.1, status_code := some r.status, details := md.2 }
  else if r.status = 429 then
    { kind := ErrKind.rateLimit, message := md.1, status_code := some r.status, details := md.2 }
  else if 500 ≤ r.status then
    { kind := ErrKind.server, message := md.1, status_code := some r.status, details := md.2 }
  else
    { kind := ErrKind.generic, message := md.1, status_code := some r.status, details := md.2 }

/-- `requests.Response.ok`: true unless the status is 4xx or 5xx
(in particular 3xx responses count as ok). -/
def respOk (status : Nat) : Bool :=
  decide (status < 400 ∨ 600 ≤ status)

/-- The generic error raised by the dispatcher's
`except requests.exceptions.RequestException` handler. -/
def requestFailed (msg : String) : HSEAPIError :=
  { kind := ErrKind.generic
    message := Json.str ("Request failed: " ++ msg)
    status_code := none
    details := none }

/-- Build the request that `session.request` will send. -/
def mkRequest (c : HSEClient) (method endpoint : String) (data : Option Json)
    (params : List (String × Json)) : SentRequest :=
  { method := method
    url := c.base_url ++ endpoint
    data := data
    params := params
    headers := c.get_headers }

/-- One `session.request` exchange: log the request, consume the next
pending transport result (an exhausted oracle behaves as a connection
failure). -/
def sendRequest (c : HSEClient) (w : World) (method endpoint : String)
    (data : Option Json) (params : List (String × Json)) :
    TransportResult × World :=
  let req := mkRequest c method endpoint data params
  match w.pending with
  | [] => (TransportResult.netErr "connection aborted", { pending := [], sent := w.sent ++ [req] })
  | t :: rest => (t, { pending := rest, sent := w.sent ++ [req] })

/-- The tail of `_request` after the (possibly resent) response is in
hand: `if not response.ok: self._handle_error(response)`, then the
204/empty-body check, then `response.json()`.  A parse failure of a
success body raises `requests.JSONDecodeError`, a `RequestException`,
which the outer handler wraps into the generic "Request failed" error
(the decode message is abbreviated in the model). -/
def finishResponse (r : Response) : Except PyError (Option Json) :=
  if respOk r.status = false then
    Except.error (PyError.api (handle_error r))
  else if r.status = 204 ∨ r.text = "" then
    Except.ok none
  else
    match r.body with
    | some j => Except.ok (some j)
    | none => Except.error (PyError.api (requestFailed "Expecting value"))

/-- `HSEClient._request` with `retry_on_401=False`: one send, no refresh
path; a transport failure is wrapped by the outer exception handler. -/
def HSEClient.requestNoRetry (c : HSEClient) (w : World) (method endpoint : String)
    (data : Option Json) (params : List (String × Json)) :
    Except PyError (Option Json) × HSEClient × World :=
  match sendRequest c w method endpoint data params with
  | (TransportResult.netErr m, w1) => (Except.error (PyError.api (requestFailed m)), c, w1)
  | (TransportResult.ok r, w1) => (finishResponse r, c, w1)

/-- Extraction of the token pair from a login/signup/refresh response
body: `result["accessToken"]` / `result["refreshToken"]`.  Subscripting
`None` or a non-dict raises `TypeError`; a dict without the key raises
`KeyError` (access token first, matching evaluation order). -/
def parseTokens (body : Option Json) : Except PyError AuthTokens :=
  match body with
  | some (Json.obj fields) =>
      match lookupField fields "accessToken" with
      | none => Except.error (PyError.keyError "accessToken")
      | some a =>
          match lookupField fields "refreshToken" with
          | none => Except.error (PyError.keyError "refreshToken")
          | some r => Except.ok { access_token := a, refresh_token := r }
  | _ => Except.error PyError.typeError

/-- The `AuthenticationError("No refresh token available")` value. -/
def noRefreshTokenError : HSEAPIError :=
  { kind := ErrKind.authentication
    message := Json.str "No refresh token available"
    status_code := none
    details := none }

/-- `HSEClient._refresh_access_token`: guard on a (truthy) refresh token,
issue the refresh call with `retry_on_401=False`, parse and commit the
new token pair. -/
def HSEClient.refresh_access_token (c : HSEClient) (w : World) :
    Except PyError Unit × HSEClient × World :=
  if c.refresh_token.truthy = false then
    (Except.error (PyError.api noRefreshTokenError), c, w)
  else
    match c.requestNoRetry w "POST" "/api/auth/refresh"
        (some (Json.obj [("refreshToken", c.refresh_token)])) [] with
    | (Except.error e, c1, w1) => (Except.error e, c1, w1)
    | (Except.ok body, c1, w1) =>
        match parseTokens body with
        | Except.error e => (Except.error e, c1, w1)
        | Except.ok tokens => (Except.ok (), c1.set_tokens tokens, w1)

/-- `HSEClient._request`.  With `retry_on_401=True`: send, and on a 401
with a truthy refresh token run the refresh cycle and resend once; any
exception from that inner block clears the tokens and is re-raised
(a transport failure of the resend is then wrapped by the outer
`RequestException` handler, every other exception passes through
unchanged). -/
def HSEClient.request (c : HSEClient) (w : World) (method endpoint : String)
    (data : Option Json) (params : List (String × Json)) (retry_on_401 : Bool) :
    Except PyError (Option Json) × HSEClient × World :=
  if retry_on_401 = false then
    c.requestNoRetry w method endpoint data params
  else
    match sendRequest c w method endpoint data params with
    | (TransportResult.netErr m, w1) =>
        (Except.error (PyError.api (requestFailed m)), c, w1)
    | (TransportResult.ok r, w1) =>
        if r.status = 401 ∧ c.refresh_token.truthy = true then
          match c.refresh_access_token w1 with
          | (Except.error e, c1, w2) => (Except.error e, c1.clear_tokens, w2)
          | (Except.ok _, c1, w2) =>
              match sendRequest c1 w2 method endpoint data params with
              | (TransportResult.netErr m, w3) =>
                  (Except.error (PyError.api (requestFailed m)), c1.clear_tokens, w3)
              | (TransportResult.ok r2, w3) => (finishResponse r2, c1, w3)
        else (finishResponse r, c, w1)

/-- `HSEClient.login`. -/
def HSEClient.login (c : HSEClient) (w : World) (email password : String) :
    Except PyError (Option Json) × HSEClient × World :=
  match c.request w "POST" "/api/auth/login"
      (some (Json.obj [("email", Json.str email), ("password", Json.str password)])) [] true with
  | (Except.error e, c1, w1) => (Except.error e, c1, w1)
  | (Except.ok result, c1, w1) =>
      match parseTokens result with
      | Except.error e => (Except.error e, c1, w1)
      | Except.ok tokens => (Except.ok result, c1.set_tokens tokens, w1)

/-- `HSEClient.signup`. -/
def HSEClient.signup (c : HSEClient) (w : World)
    (name email password organization_name : String) :
    Except PyError (Option Json) × HSEClient × World :=
  match c.request w "POST" "/api/auth/signup-with-org"
      (some (Json.obj [("name", Json.str name), ("email", Json.str email),
        ("password", Json.str password),
        ("organizationName", Json.str organization_name)])) [] true with
  | (Except.error e, c1, w1) => (Except.error e, c1, w1)
  | (Except.ok result, c1, w1) =>
      match parseTokens result with
      | Except.error e => (Except.error e, c1, w1)
      | Except.ok tokens => (Except.ok result, c1.set_tokens tokens, w1)

/-- `HSEClient.logout`: network call only behind `if self.refresh_token:`;
`clear_tokens` runs only after a successful request (an exception skips
it and propagates). -/
def HSEClient.logout (c : HSEClient) (w : World) :
    Except PyError Unit × HSEClient × World :=
  if c.refresh_token.truthy = true then
    match c.request w "POST" "/api/auth/logout"
        (some (Json.obj [("refreshToken", c.refresh_token)])) [] true with
    | (Except.error e, c1, w1) => (Except.error e, c1, w1)
    | (Except.ok _, c1, w1) => (Except.ok (), c1.clear_tokens, w1)
  else (Except.ok (), c.clear_tokens, w)

/-- Python truthiness of an optional-string parameter (`if station_id:`). -/
def truthyOptStr : Option String → Bool
  | none => false
  | some s => s ≠ ""

/-- The query params built by `list_audits`: `{"limit": limit}` first,
then each truthy filter in source order. -/
def auditParams (station_id auditor_id status cursor : Option String)
    (limit : Int) : List (String × Json) :=
  [("limit", Json.num limit)]
    ++ (match station_id with
        | some s => if s ≠ "" then [("stationId", Json.str s)] else []
        | none => [])
    ++ (match auditor_id with
        | some s => if s ≠ "" then [("auditorId", Json.str s)] else []
        | none => [])
    ++ (match status with
        | some s => if s ≠ "" then [("status", Json.str s)] else []
        | none => [])
    ++ (match cursor with
        | some s => if s ≠ "" then [("cursor", Json.str s)] else []
        | none => [])

/-- `HSEClient.list_audits`: build the query, dispatch, and wrap the body
as `{"data": result.get("audits", []), "pagination": result.get("pagination", {})}`;
`.get` on `None` or a non-dict result raises `AttributeError`.  As with
`dict.get`, a field bound to `null` is returned as-is (no defaulting). -/
def HSEClient.list_audits (c : HSEClient) (w : World)
    (station_id auditor_id status cursor : Option String) (limit : Int) :
    Except PyError Json × HSEClient × World :=
  match c.request w "GET" "/api/audits" none
      (auditParams station_id auditor_id status cursor limit) true with
  | (Except.error e, c1, w1) => (Except.error e, c1, w1)
  | (Except.ok result, c1, w1) =>
      match result with
      | some (Json.obj fields) =>
          (Except.ok (Json.obj
            [("data", (lookupField fields "audits").getD (Json.arr [])),
             ("pagination", (lookupField fields "pagination").getD (Json.obj []))]),
           c1, w1)
      | _ => (Except.error PyError.attributeError, c1, w1)

/-- Spec §4.4 status→kind mapping, written from the spec's words:
401→Authentication, 400→Validation, 404→NotFound, 429→RateLimit,
≥500→Server, anything else (including other 4xx)→Generic. -/
def specKind (status : Nat) : ErrKind :=
  if status = 401 then ErrKind.authentication
  else if status = 400 then ErrKind.validation
  else if status = 404 then ErrKind.notFound
  else if status = 429 then ErrKind.rateLimit
  else if 500 ≤ status then ErrKind.server
  else ErrKind.generic

/-- Spec §4.4 message rule, written from the spec's words: the `error`
field of the JSON body if the body is parseable as JSON (a field lookup
presupposes an object; an absent field takes the final "Unknown error"
fallback), else the raw response text, else "Unknown error". -/
def specMessage (r : Response) : Json :=
  match r.body with
  | some (Json.obj fields) => (lookupField fields "error").getD (Json.str "Unknown error")
  | _ => if r.text = "" then Json.str "Unknown error" else Json.str r.text

/-- Spec §4.4 details rule: the `details` field of the body when present,
otherwise absent (a `null`-valued field is Python `None`, identical to
absence). -/
def specDetails (r : Response) : Option Json :=
  match r.body with
  | some (Json.obj fields) => pyNone (lookupField fields "details")
  | _ => none

/-- The Session-State consistency predicate of claim C5: never exactly
one of the two tokens set (`Json.null` models an absent token). -/
def tokenConsistent (c : HSEClient) : Prop :=
  (c.access_token = Json.null ∧ c.refresh_token = Json.null) ∨
  (c.access_token ≠ Json.null ∧ c.refresh_token ≠ Json.null)

/-- The sent request `q` is an instance of the original logical call. -/
def isOrigReq (c : HSEClient) (m ep : String) (d : Option Json)
    (p : List (String × Json)) (q : SentRequest) : Prop :=
  q.method = m ∧ q.url = c.base_url ++ ep ∧ q.data = d ∧ q.params = p

/-- The sent request `q` is a refresh call. -/
def isRefreshReq (c : HSEClient) (q : SentRequest) : Prop :=
  q.method = "POST" ∧ q.url = c.base_url ++ "/api/auth/refresh"

/-! ## Unfolding lemmas for the dispatcher -/

theorem requestNoRetry_nil (c : HSEClient) (st : List SentRequest)
    (m ep : String) (d : Option Json) (p : List (String × Json)) :
    c.requestNoRetry { pending := [], sent := st } m ep d p =
      (Except.error (PyError.api (requestFailed "connection aborted")), c,
       { pending := [], sent := st ++ [mkRequest c m ep d p] }) := rfl

theorem requestNoRetry_cons_ok (c : HSEClient) (st : List SentRequest)
    (rest : List TransportResult) (r : Response)
    (m ep : String) (d : Option Json) (p : List (String × Json)) :
    c.requestNoRetry { pending := TransportResult.ok r :: rest, sent := st } m ep d p =
      (finishResponse r, c, { pending := rest, sent := st ++ [mkRequest c m ep d p] }) := rfl

theorem requestNoRetry_cons_net (c : HSEClient) (st : List SentRequest)
    (rest : List TransportResult) (msg : String)
    (m ep : String) (d : Option Json) (p : List (String × Json)) :
    c.requestNoRetry { pending := TransportResult.netErr msg :: rest, sent := st } m ep d p =
      (Except.error (PyError.api (requestFailed msg)), c,
       { pending := rest, sent := st ++ [mkRequest c m ep d p] }) := rfl

theorem request_true_nil (c : HSEClient) (st : List SentRequest)
    (m ep : String) (d : Option Json) (p : List (String × Json)) :
    c.request { pending := [], sent := st } m ep d p true =
      (Except.error (PyError.api (requestFailed "connection aborted")), c,
       { pending := [], sent := st ++ [mkRequest c m ep d p] }) := rfl

theorem request_true_cons_net (c : HSEClient) (st : List SentRequest)
    (rest : List TransportResult) (msg : String)
    (m ep : String) (d : Option Json) (p : List (String × Json)) :
    c.request { pending := TransportResult.netErr msg :: rest, sent := st } m ep d p true =
      (Except.error (PyError.api (requestFailed msg)), c,
       { pending := rest, sent := st ++ [mkRequest c m ep d p] }) := rfl

theorem request_true_cons_ok (c : HSEClient) (st : List SentRequest)
    (rest : List TransportResult) (r : Response)
    (m ep : String) (d : Option Json) (p : List (String × Json)) :
    c.request { pending := TransportResult.ok r :: rest, sent := st } m ep d p true =
      (if r.status = 401 ∧ c.refresh_token.truthy = true then
        match c.refresh_access_token { pending := rest, sent := st ++ [mkRequest c m ep d p] } with
        | (Except.error e, c1, w2) => (Except.error e, c1.clear_tokens, w2)
        | (Except.ok _, c1, w2) =>
            match sendRequest c1 w2 m ep d p with
            | (TransportResult.netErr mm, w3) =>
                (Except.error (PyError.api (requestFailed mm)), c1.clear_tokens, w3)
            | (TransportResult.ok r2, w3) => (finishResponse r2, c1, w3)
       else (finishResponse r, c, { pending := rest, sent := st ++ [mkRequest c m ep d p] })) := rfl

theorem requestNoRetry_client (c : HSEClient) (w : World) (m ep : String)
    (d : Option Json) (p : List (String × Json)) :
    (c.requestNoRetry w m ep d p).2.1 = c := by
  obtain ⟨pd, st⟩ := w
  cases pd with
  | nil => rfl
  | cons t rest => cases t <;> rfl

theorem requestNoRetry_sent (c : HSEClient) (w : World) (m ep : String)
    (d : Option Json) (p : List (String × Json)) :
    (c.requestNoRetry w m ep d p).2.2.sent = w.sent ++ [mkRequest c m ep d p] := by
  obtain ⟨pd, st⟩ := w
  cases pd with
  | nil => rfl
  | cons t rest => cases t <;> rfl

theorem sendRequest_sent (c : HSEClient) (w : World) (m ep : String)
    (d : Option Json) (p : List (String × Json)) :
    (sendRequest c w m ep d p).2.sent = w.sent ++ [mkRequest c m ep d p] := by
  obtain ⟨pd, st⟩ := w
  cases pd with
  | nil => rfl
  | cons t rest => rfl

/-! ## Claim theorems -/

/-- C3: for every non-success status code and every response body, error
classification produces exactly one typed error whose kind is determined
solely by the status code, per the fixed mapping 401→Authentication,
400→Validation, 404→NotFound, 429→RateLimit, ≥500→Server, anything else
(including other 4xx)→Generic, independent of the body's shape. -/
theorem claim_C3_kind_mapping :
    (∀ (status : Nat) (body : Option Json) (text : String),
      (handle_error { status := status, body := body, text := text }).kind = specKind status) ∧
    (∀ r1 r2 : Response, r1.status = r2.status →
      (handle_error r1).kind = (handle_error r2).kind) := by
  have h : ∀ r : Response, (handle_error r).kind = specKind r.status := by
    intro r
    simp only [handle_error, specKind]
    split_ifs <;> rfl
  exact ⟨fun s b t => h { status := s, body := b, text := t },
         fun r1 r2 hst => by rw [h r1, h r2, hst]⟩

/-- C6: for every non-success response, the typed error's message follows
the spec's ordered extraction rule (`error` field of a parseable JSON
body, else raw text, else "Unknown error") and its details come from a
`details` field when present, otherwise absent. -/
theorem claim_C6_message_details : ∀ r : Response,
    (handle_error r).message = specMessage r ∧
    (handle_error r).details = specDetails r := by
  intro r
  obtain ⟨s, b, t⟩ := r
  cases b with
  | none =>
    constructor <;> (simp only [handle_error, specMessage, specDetails]; split_ifs <;> rfl)
  | some j =>
    cases j <;>
      constructor <;> (simp only [handle_error, specMessage, specDetails]; split_ifs <;> rfl)

/-- C5 counterexample: the claim asserts every reachable state has the
token pair consistent (never exactly one set) and that construction
preserves this; but constructing a client with an initial access token
(a documented configuration option) yields access set and refresh absent. -/
theorem claim_C5_counterexample :
    ¬ tokenConsistent (HSEClient.init "http://localhost:3001" (some "X") false) := by
  intro h
  rcases h with ⟨h1, _⟩ | ⟨_, h2⟩
  · exact Json.noConfusion h1
  · exact h2 rfl

/-- C5 amended: there is no partial-update path — `set_tokens` writes
both tokens together and `clear_tokens` clears both together, and a
client constructed without an initial access token starts with both
absent; however construction with an initial access token starts with
access set and refresh absent, so the claimed invariant fails there. -/
theorem claim_C5_amended :
    (∀ (u : String) (ob : Bool),
      (HSEClient.init u none ob).access_token = Json.null ∧
      (HSEClient.init u none ob).refresh_token = Json.null) ∧
    (∀ c : HSEClient,
      c.clear_tokens.access_token = Json.null ∧
      c.clear_tokens.refresh_token = Json.null) ∧
    (∀ (c : HSEClient) (tk : AuthTokens),
      (c.set_tokens tk).access_token = tk.access_token ∧
      (c.set_tokens tk).refresh_token = tk.refresh_token) :=
  ⟨fun _ _ => ⟨rfl, rfl⟩, fun _ => ⟨rfl, rfl⟩, fun _ _ => ⟨rfl, rfl⟩⟩

/-- C7: with an absent refresh token the refresh cycle fails immediately
with the Authentication error "No refresh token available", touching
neither state nor network, and the dispatcher's unauthorized-retry path
is never attempted (the dispatch behaves exactly as with the retry flag
disabled). -/
theorem claim_C7_no_refresh_token :
    (∀ (c : HSEClient) (w : World), c.refresh_token = Json.null →
      c.refresh_access_token w = (Except.error (PyError.api noRefreshTokenError), c, w)) ∧
    (∀ (c : HSEClient) (w : World) (m ep : String) (d : Option Json)
        (p : List (String × Json)), c.refresh_token = Json.null →
      c.request w m ep d p true = c.requestNoRetry w m ep d p) := by
  constructor
  · intro c w h
    simp [HSEClient.refresh_access_token, h, Json.truthy]
  · intro c w m ep d p h
    obtain ⟨pd, st⟩ := w
    cases pd with
    | nil => rfl
    | cons tr rest =>
      cases tr with
      | netErr msg => rfl
      | ok r =>
        rw [request_true_cons_ok, requestNoRetry_cons_ok, if_neg]
        intro hcon
        rw [h] at hcon
        exact Bool.false_ne_true hcon.2

/-- C7 witness: a fresh client has refresh token absent; its refresh
cycle fails immediately with the dedicated Authentication error without
consuming or sending anything. -/
theorem claim_C7_no_refresh_token_witness :
    (HSEClient.init "http://localhost:3001" none false).refresh_token = Json.null ∧
    (HSEClient.init "http://localhost:3001" none false).refresh_access_token
        { pending := [], sent := [] } =
      (Except.error (PyError.api noRefreshTokenError),
       HSEClient.init "http://localhost:3001" none false,
       { pending := [], sent := [] }) :=
  ⟨rfl, claim_C7_no_refresh_token.1 _ _ rfl⟩

/-- C8: `set_tokens` replaces both tokens together and notifies the
observer registered at construction with exactly the new pair; a login
against a server returning accessToken "A" and refreshToken "R" leaves
the client sending authorization header "Bearer A" (and the observer was
invoked once with that pair). -/
theorem claim_C8_set_tokens_observer :
    (∀ (c : HSEClient) (tk : AuthTokens),
      (c.set_tokens tk).access_token = tk.access_token ∧
      (c.set_tokens tk).refresh_token = tk.refresh_token ∧
      (c.set_tokens tk).observer_log =
        c.observer_log ++ (if c.on_token_refresh then [tk] else [])) ∧
    (let c0 := HSEClient.init "http://localhost:3001" none true
     let w0 : World :=
       { pending := [TransportResult.ok
           { status := 200
             body := some (Json.obj
               [("accessToken", Json.str "A"), ("refreshToken", Json.str "R")])
             text := "tok" }]
         sent := [] }
     let res := c0.login w0 "admin@example.com" "password123"
     res.2.1.get_headers =
        [("Content-Type", "application/json"), ("Authorization", "Bearer A")] ∧
     res.2.1.observer_log =
        [{ access_token := Json.str "A", refresh_token := Json.str "R" }]) := by
  constructor
  · intro c tk
    refine ⟨rfl, rfl, ?_⟩
    cases hc : c.on_token_refresh <;> simp [HSEClient.set_tokens, hc]
  · exact ⟨rfl, rfl⟩

/-- C4 counterexample: a 304 response (status outside [200,299] and not
204) delivered to the dispatcher is treated as success (the empty result),
not classified into a typed error — `requests.Response.ok` is true for
3xx, so the claim fails on the code as written. -/
theorem claim_C4_counterexample :
    (304 < 200 ∨ 299 < 304) ∧ 304 ≠ 204 ∧
    ((HSEClient.init "http://localhost:3001" none false).request
        { pending := [TransportResult.ok { status := 304, body := none, text := "" }]
          sent := [] }
        "GET" "/api/stations" none [] true).1 = Except.ok none :=
  ⟨Or.inr (by decide), by decide, rfl⟩

/-- C4 amended: every status in [400,599] is treated as a failure and
classified into a typed error; a status below 400 (in particular any 3xx
delivered to the dispatcher) is treated as success — with an empty body
it yields the empty result rather than an error. -/
theorem claim_C4_amended : ∀ r : Response,
    (400 ≤ r.status → r.status < 600 →
      finishResponse r = Except.error (PyError.api (handle_error r))) ∧
    (r.status < 400 → r.text = "" → finishResponse r = Except.ok none) := by
  intro r
  constructor
  · intro h1 h2
    have hok : respOk r.status = false := by
      simp only [respOk, decide_eq_false_iff_not]
      omega
    simp [finishResponse, hok]
  · intro h1 h2
    have hok : respOk r.status = true := by
      simp only [respOk, decide_eq_true_eq]
      omega
    simp [finishResponse, hok, h2]

/-- C4 amended witness: 404 is classified; 304 with empty body is success. -/
theorem claim_C4_amended_witness :
    finishResponse { status := 404, body := none, text := "" } =
      Except.error (PyError.api (handle_error { status := 404, body := none, text := "" })) ∧
    finishResponse { status := 304, body := none, text := "" } = Except.ok none :=
  ⟨(claim_C4_amended { status := 404, body := none, text := "" }).1 (by decide) (by decide),
   (claim_C4_amended { status := 304, body := none, text := "" }).2 (by decide) rfl⟩

/-- C9: `list_audits` called with a station id and a limit sends exactly
the query mapping with the limit and stationId (absent filters omitted),
and on a success response wraps the body as data := body.audits (default
empty list) and pagination := body.pagination (default empty mapping). -/
theorem claim_C9_list_audits :
    ∀ (c : HSEClient) (w : World) (sid : String) (limit : Int) (r : Response)
      (rest : List TransportResult) (fields : List (String × Json)),
      sid ≠ "" →
      w.pending = TransportResult.ok r :: rest →
      r.status = 200 → r.body = some (Json.obj fields) → r.text ≠ "" →
      auditParams (some sid) none none none limit =
        [("limit", Json.num limit), ("stationId", Json.str sid)] ∧
      (c.list_audits w (some sid) none none none limit).2.2.sent =
        w.sent ++ [mkRequest c "GET" "/api/audits" none
          [("limit", Json.num limit), ("stationId", Json.str sid)]] ∧
      (c.list_audits w (some sid) none none none limit).1 =
        Except.ok (Json.obj
          [("data", (lookupField fields "audits").getD (Json.arr [])),
           ("pagination", (lookupField fields "pagination").getD (Json.obj []))]) := by
  intro c w sid limit r rest fields hsid hp hs hb ht
  have hparams : auditParams (some sid) none none none limit =
      [("limit", Json.num limit), ("stationId", Json.str sid)] := by
    simp [auditParams, hsid]
  have hfin : finishResponse r = Except.ok (some (Json.obj fields)) := by
    have hok : respOk r.status = true := by
      simp only [respOk, decide_eq_true_eq]
      omega
    rw [finishResponse, hok]
    simp only [Bool.true_eq_false, if_false]
    rw [if_neg, hb]
    rw [hs]
    simp [ht]
  obtain ⟨pd, st⟩ := w
  simp only [World.pending] at hp
  subst hp
  constructor
  · exact hparams
  · unfold HSEClient.list_audits
    rw [hparams, request_true_cons_ok, if_neg, hfin]
    · exact ⟨rfl, rfl⟩
    · intro hcon
      rw [hs] at hcon
      exact absurd hcon.1 (by decide)

/-- C9 witness: a concrete `list_audits(stationId="s1", limit=10)` against
a success body with no `audits` field returns the defaulted envelope. -/
theorem claim_C9_list_audits_witness :
    (let c0 := HSEClient.init "http://localhost:3001" none false
     let w0 : World :=
       { pending := [TransportResult.ok
           { status := 200, body := some (Json.obj []), text := "t" }]
         sent := [] }
     (c0.list_audits w0 (some "s1") none none none 10).1 =
       Except.ok (Json.obj [("data", Json.arr []), ("pagination", Json.obj [])]) ∧
     (c0.list_audits w0 (some "s1") none none none 10).2.2.sent =
       [mkRequest c0 "GET" "/api/audits" none
         [("limit", Json.num 10), ("stationId", Json.str "s1")]]) := by
  have h := claim_C9_list_audits (HSEClient.init "http://localhost:3001" none false)
    { pending := [TransportResult.ok { status := 200, body := some (Json.obj []), text := "t" }]
      sent := [] }
    "s1" 10 { status := 200, body := some (Json.obj []), text := "t" } [] []
    (by decide) rfl rfl rfl (by decide)
  exact ⟨h.2.2, h.2.1⟩

/-- C1 counterexample: with tokens (A,R) and a first 401, a refresh cycle
answered 500 fails; the caller then receives that Server error — not an
Authentication error as the claim requires — though both tokens are
indeed cleared.  The inner handler re-raises the refresh failure as-is
and only `AuthenticationError` causes (refresh rejected with 401, missing
refresh token) surface as Authentication. -/
theorem claim_C1_counterexample :
    (let cAR := (HSEClient.init "http://localhost:3001" none false).set_tokens
        { access_token := Json.str "A", refresh_token := Json.str "R" }
     let w : World :=
       { pending := [TransportResult.ok { status := 401, body := none, text := "" },
                     TransportResult.ok { status := 500, body := none, text := "" }]
         sent := [] }
     let res := cAR.request w "GET" "/api/stations" none [] true
     res.1 = Except.error (PyError.api
        { kind := ErrKind.server, message := Json.str "Unknown error",
          status_code := some 500, details := none }) ∧
     ErrKind.server ≠ ErrKind.authentication ∧
     res.2.1.access_token = Json.null ∧
     res.2.1.refresh_token = Json.null) :=
  ⟨rfl, by decide, rfl, rfl⟩

/-- C1 amended: when a call with the unauthorized-retry flag meets a
first 401 with a refresh token present and the refresh cycle fails, both
tokens are cleared and the caller receives the refresh failure itself,
propagated unchanged (an Authentication error exactly when the refresh
failed that way, e.g. its own 401 — not always); the original request's
401 error is never propagated. -/
theorem claim_C1_amended :
    ∀ (c : HSEClient) (st : List SentRequest) (m ep : String) (d : Option Json)
      (p : List (String × Json)) (r : Response) (rest : List TransportResult)
      (e : PyError) (c1 : HSEClient) (w2 : World),
      r.status = 401 →
      c.refresh_token.truthy = true →
      c.refresh_access_token { pending := rest, sent := st ++ [mkRequest c m ep d p] } =
        (Except.error e, c1, w2) →
      c.request { pending := TransportResult.ok r :: rest, sent := st } m ep d p true =
        (Except.error e, c1.clear_tokens, w2) ∧
      c1.clear_tokens.access_token = Json.null ∧
      c1.clear_tokens.refresh_token = Json.null := by
  intro c st m ep d p r rest e c1 w2 hs ht hr
  refine ⟨?_, rfl, rfl⟩
  rw [request_true_cons_ok, if_pos ⟨hs, ht⟩, hr]

/-- C1 amended witness: the concrete refresh-fails-with-500 scenario. -/
theorem claim_C1_amended_witness :
    (let cAR := (HSEClient.init "http://localhost:3001" none false).set_tokens
        { access_token := Json.str "A", refresh_token := Json.str "R" }
     let e500 : PyError := PyError.api
        { kind := ErrKind.server, message := Json.str "Unknown error",
          status_code := some 500, details := none }
     let w2 : World :=
       { pending := []
         sent := [mkRequest cAR "GET" "/api/stations" none [],
                  mkRequest cAR "POST" "/api/auth/refresh"
                    (some (Json.obj [("refreshToken", Json.str "R")])) []] }
     cAR.request
        { pending := [TransportResult.ok { status := 401, body := none, text := "" },
                      TransportResult.ok { status := 500, body := none, text := "" }]
          sent := [] } "GET" "/api/stations" none [] true =
       (Except.error e500, cAR.clear_tokens, w2) ∧
     cAR.clear_tokens.access_token = Json.null ∧
     cAR.clear_tokens.refresh_token = Json.null) :=
  claim_C1_amended _ [] "GET" "/api/stations" none []
    { status := 401, body := none, text := "" }
    [TransportResult.ok { status := 500, body := none, text := "" }]
    _ _ _ rfl rfl rfl

/-- C10 counterexample: the claim says a failed logout leaves the session
unchanged; but a logout whose request hits 401 and whose refresh cycle
then fails (here with 500) propagates the error AND leaves both tokens
cleared by the unauthorized-retry path — the state did change. -/
theorem claim_C10_counterexample :
    (let cAR := (HSEClient.init "http://localhost:3001" none false).set_tokens
        { access_token := Json.str "A", refresh_token := Json.str "R" }
     let w : World :=
       { pending := [TransportResult.ok { status := 401, body := none, text := "" },
                     TransportResult.ok { status := 500, body := none, text := "" }]
         sent := [] }
     cAR.refresh_token = Json.str "R" ∧
     (cAR.logout w).1 = Except.error (PyError.api
        { kind := ErrKind.server, message := Json.str "Unknown error",
          status_code := some 500, details := none }) ∧
     (cAR.logout w).2.1.access_token = Json.null ∧
     (cAR.logout w).2.1.refresh_token = Json.null) :=
  ⟨rfl, rfl, rfl, rfl⟩

/-- C10 amended: logout issues its network request only behind a truthy
refresh token; with no (truthy) refresh token it makes no network call
and clears both tokens; on a failed request the error propagates and
logout itself performs no clear — the final state is exactly what the
dispatcher left, which is the original state whenever the failure did not
engage the unauthorized-retry refresh path (e.g. any non-401 error
status), but may have cleared or replaced tokens when it did. -/
theorem claim_C10_amended :
    (∀ (c : HSEClient) (w : World), c.refresh_token.truthy = false →
      c.logout w = (Except.ok (), c.clear_tokens, w)) ∧
    (∀ (c : HSEClient) (w : World) (e : PyError) (c1 : HSEClient) (w1 : World),
      c.refresh_token.truthy = true →
      c.request w "POST" "/api/auth/logout"
          (some (Json.obj [("refreshToken", c.refresh_token)])) [] true =
        (Except.error e, c1, w1) →
      c.logout w = (Except.error e, c1, w1)) ∧
    (∀ (c : HSEClient) (st : List SentRequest) (rest : List TransportResult) (r : Response),
      c.refresh_token.truthy = true →
      r.status ≠ 401 → 400 ≤ r.status → r.status < 600 →
      c.logout { pending := TransportResult.ok r :: rest, sent := st } =
        (Except.error (PyError.api (handle_error r)), c,
         { pending := rest
           sent := st ++ [mkRequest c "POST" "/api/auth/logout"
             (some (Json.obj [("refreshToken", c.refresh_token)])) []] })) := by
  refine ⟨?_, ?_, ?_⟩
  · intro c w h
    simp [HSEClient.logout, h]
  · intro c w e c1 w1 ht hreq
    unfold HSEClient.logout
    rw [if_pos ht, hreq]
  · intro c st rest r ht hne h4 h6
    have hfin : finishResponse r = Except.error (PyError.api (handle_error r)) := by
      have hok : respOk r.status = false := by
        simp only [respOk, decide_eq_false_iff_not]
        omega
      simp [finishResponse, hok]
    unfold HSEClient.logout
    rw [if_pos ht, request_true_cons_ok, if_neg, hfin]
    intro hcon
    exact hne hcon.1

/-- C10 amended witness: a fresh client (refresh token absent) logs out
with no network call, ending with both tokens absent. -/
theorem claim_C10_amended_witness :
    (HSEClient.init "http://localhost:3001" none false).logout
        { pending := [], sent := [] } =
      (Except.ok (), (HSEClient.init "http://localhost:3001" none false).clear_tokens,
       { pending := [], sent := [] }) :=
  claim_C10_amended.1 _ _ rfl

theorem refresh_sent_of_truthy (c : HSEClient) (w : World)
    (ht : c.refresh_token.truthy = true) :
    (c.refresh_access_token w).2.2.sent =
      w.sent ++ [mkRequest c "POST" "/api/auth/refresh"
        (some (Json.obj [("refreshToken", c.refresh_token)])) []] := by
  unfold HSEClient.refresh_access_token
  rw [if_neg (by simp [ht])]
  rcases hq : c.requestNoRetry w "POST" "/api/auth/refresh"
      (some (Json.obj [("refreshToken", c.refresh_token)])) [] with ⟨res, c1, w1⟩
  have hsent : w1.sent = w.sent ++ [mkRequest c "POST" "/api/auth/refresh"
      (some (Json.obj [("refreshToken", c.refresh_token)])) []] := by
    have h := requestNoRetry_sent c w "POST" "/api/auth/refresh"
      (some (Json.obj [("refreshToken", c.refresh_token)])) []
    rw [hq] at h
    exact h
  cases res with
  | error e => exact hsent
  | ok body =>
    cases hpt : parseTokens body with
    | error e => simpa [hpt] using hsent
    | ok tk => simpa [hpt] using hsent

theorem refresh_client_base (c : HSEClient) (w : World) :
    (c.refresh_access_token w).2.1.base_url = c.base_url := by
  by_cases ht : c.refresh_token.truthy = false
  · simp [HSEClient.refresh_access_token, ht]
  · unfold HSEClient.refresh_access_token
    rw [if_neg ht]
    rcases hq : c.requestNoRetry w "POST" "/api/auth/refresh"
        (some (Json.obj [("refreshToken", c.refresh_token)])) [] with ⟨res, c1, w1⟩
    have hc1 : c1 = c := by
      have h := requestNoRetry_client c w "POST" "/api/auth/refresh"
        (some (Json.obj [("refreshToken", c.refresh_token)])) []
      rw [hq] at h
      exact h
    cases res with
    | error e => rw [hc1]
    | ok body =>
      cases hpt : parseTokens body with
      | error e => simp [hpt, hc1]
      | ok tk => simp [hpt, hc1, HSEClient.set_tokens]

/-- C2: the dispatcher performs at most one unauthorized-retry per
logical call — the requests it sends are the original, or the original
followed by one refresh call, or the original, one refresh call and one
resend of the original (never more) — a call with the retry flag
disabled sends exactly one request, and the refresh cycle itself sends
at most one request (its own call is issued with the retry flag
disabled, so no nested refresh is ever attempted). -/
theorem claim_C2_single_retry :
    (∀ (c : HSEClient) (w : World) (m ep : String) (d : Option Json)
        (p : List (String × Json)),
      ∃ q, (c.requestNoRetry w m ep d p).2.2.sent = w.sent ++ [q] ∧
        isOrigReq c m ep d p q) ∧
    (∀ (c : HSEClient) (w : World),
      (c.refresh_access_token w).2.2.sent = w.sent ∨
      ∃ q, (c.refresh_access_token w).2.2.sent = w.sent ++ [q] ∧ isRefreshReq c q) ∧
    (∀ (c : HSEClient) (w : World) (m ep : String) (d : Option Json)
        (p : List (String × Json)),
      ∃ L, (c.request w m ep d p true).2.2.sent = w.sent ++ L ∧
        ((∃ q1, L = [q1] ∧ isOrigReq c m ep d p q1) ∨
         (∃ q1 q2, L = [q1, q2] ∧ isOrigReq c m ep d p q1 ∧ isRefreshReq c q2) ∨
         (∃ q1 q2 q3, L = [q1, q2, q3] ∧ isOrigReq c m ep d p q1 ∧
            isRefreshReq c q2 ∧ isOrigReq c m ep d p q3))) := by
  refine ⟨?_, ?_, ?_⟩
  · intro c w m ep d p
    exact ⟨mkRequest c m ep d p, requestNoRetry_sent c w m ep d p, rfl, rfl, rfl, rfl⟩
  · intro c w
    by_cases ht : c.refresh_token.truthy = true
    · exact Or.inr ⟨mkRequest c "POST" "/api/auth/refresh"
        (some (Json.obj [("refreshToken", c.refresh_token)])) [],
        refresh_sent_of_truthy c w ht, rfl, rfl⟩
    · left
      have ht2 : c.refresh_token.truthy = false := by
        cases h : c.refresh_token.truthy
        · rfl
        · exact absurd h ht
      simp [HSEClient.refresh_access_token, ht2]
  · intro c w m ep d p
    obtain ⟨pd, st⟩ := w
    cases pd with
    | nil =>
      refine ⟨[mkRequest c m ep d p], ?_, Or.inl ⟨mkRequest c m ep d p, rfl, rfl, rfl, rfl, rfl⟩⟩
      rw [request_true_nil]
    | cons t rest =>
      cases t with
      | netErr msg =>
        refine ⟨[mkRequest c m ep d p], ?_, Or.inl ⟨mkRequest c m ep d p, rfl, rfl, rfl, rfl, rfl⟩⟩
        rw [request_true_cons_net]
      | ok r =>
        by_cases hcond : r.status = 401 ∧ c.refresh_token.truthy = true
        · rcases hr : c.refresh_access_token
              { pending := rest, sent := st ++ [mkRequest c m ep d p] } with ⟨res, c1, w2⟩
          have hsent2 : w2.sent = st ++ [mkRequest c m ep d p,
              mkRequest c "POST" "/api/auth/refresh"
                (some (Json.obj [("refreshToken", c.refresh_token)])) []] := by
            have h := refresh_sent_of_truthy c
              { pending := rest, sent := st ++ [mkRequest c m ep d p] } hcond.2
            rw [hr] at h
            simpa using h
          have hbase : c1.base_url = c.base_url := by
            have h := refresh_client_base c
              { pending := rest, sent := st ++ [mkRequest c m ep d p] }
            rw [hr] at h
            exact h
          cases res with
          | error e =>
            refine ⟨[mkRequest c m ep d p,
                mkRequest c "POST" "/api/auth/refresh"
                  (some (Json.obj [("refreshToken", c.refresh_token)])) []], ?_,
              Or.inr (Or.inl ⟨_, _, rfl, ⟨rfl, rfl, rfl, rfl⟩, rfl, rfl⟩)⟩
            rw [request_true_cons_ok, if_pos hcond, hr]
            exact hsent2
          | ok u =>
            rcases hs3 : sendRequest c1 w2 m ep d p with ⟨t3, w3⟩
            have hsent3 : w3.sent = w2.sent ++ [mkRequest c1 m ep d p] := by
              have h := sendRequest_sent c1 w2 m ep d p
              rw [hs3] at h
              exact h
            refine ⟨[mkRequest c m ep d p,
                mkRequest c "POST" "/api/auth/refresh"
                  (some (Json.obj [("refreshToken", c.refresh_token)])) [],
                mkRequest c1 m ep d p], ?_,
              Or.inr (Or.inr ⟨_, _, _, rfl, ⟨rfl, rfl, rfl, rfl⟩, ⟨rfl, rfl⟩,
                ⟨rfl, by simp [mkRequest, hbase], rfl, rfl⟩⟩)⟩
            rw [request_true_cons_ok, if_pos hcond, hr]
            dsimp only
            rw [hs3]
            cases t3 with
            | netErr mm =>
              show w3.sent = _
              rw [hsent3, hsent2]
              simp
            | ok r2 =>
              show w3.sent = _
              rw [hsent3, hsent2]
              simp
        · refine ⟨[mkRequest c m ep d p], ?_, Or.inl ⟨mkRequest c m ep d p, rfl, rfl, rfl, rfl, rfl⟩⟩
          rw [request_true_cons_ok, if_neg hcond]

/-- C3 witness: the mapping at a concrete status, and kind-equality of two
responses sharing a status but with different bodies. -/
theorem claim_C3_kind_mapping_witness :
    (handle_error { status := 429, body := none, text := "" }).kind = specKind 429 ∧
    (handle_error { status := 500, body := none, text := "x" }).kind =
      (handle_error
        { status := 500, body := some (Json.obj [("error", Json.str "boom")]), text := "y" }).kind :=
  ⟨claim_C3_kind_mapping.1 429 none "",
   claim_C3_kind_mapping.2
     { status := 500, body := none, text := "x" }
     { status := 500, body := some (Json.obj [("error", Json.str "boom")]), text := "y" } rfl⟩
